import Mathlib

/-!
Shallow embedding of `src/multi_tool_agent/agent.py` (the WeatherToolset:
`get_weather`, `get_forcast`, `get_current_time`).

Modelling choices:
* JSON values decoded by `response.json()` are an inductive `Json`; numbers are
  exact rationals (Python floats are modelled by their numeric value).
* The `requests` layer is an oracle `http : HttpRequest -> HttpOutcome` supplied
  by the environment: `requests.get` either raises a network-level
  `RequestException` (timeout, DNS failure, connection error) or yields a
  response with a status code, a reason phrase and a body; the body is either
  decodable to a `Json` value or undecodable (in which case `response.json()`
  raises a `JSONDecodeError`, a subclass of `RequestException`).
* `response.raise_for_status()` raises an `HTTPError` (also a
  `RequestException`) exactly when the status code is in [400, 600).
* Python exceptions are the inductive `PyExn`; only the
  `requestException` constructor corresponds to the class caught by the
  `except requests.exceptions.RequestException` clause; `keyError`,
  `typeError` and `attributeError` model exceptions that the clause does not
  catch and therefore propagate.
* `os.getenv("WEATHERAPI_KEY")` is an `Option String` in the environment;
  Python truthiness of the check `if not api_key` makes the empty string
  behave like an absent key.
* Each operation returns a `CallResult`: the Python outcome (a returned value
  or an uncaught exception) together with the number of HTTP requests issued
  during the call.
* `datetime.datetime.now(tz)` is an oracle `now : String -> TzDateTime` from a
  timezone identifier to the current wall-clock components in that timezone;
  `strftime` with format `%Y-%m-%d %H:%M:%S %Z%z` is implemented over those
  components.
-/

namespace AgentPy

/-- JSON value as decoded by `response.json()`. Object fields keep decode
order; numbers are exact rationals. -/
inductive Json : Type where
  | null : Json
  | bool (b : Bool) : Json
  | num (q : ℚ) : Json
  | str (s : String) : Json
  | arr (elems : List Json) : Json
  | obj (fields : List (String × Json)) : Json

/-- Python exceptions relevant to this code. `requestException` stands for the
whole `requests.exceptions.RequestException` class (network errors,
`HTTPError` from `raise_for_status`, `JSONDecodeError` from `response.json`),
carrying its `str(e)` rendering; the other constructors are exceptions that
the `except` clause in the source does not catch. -/
inductive PyExn : Type where
  | requestException (desc : String) : PyExn
  | keyError (key : String) : PyExn
  | typeError (desc : String) : PyExn
  | attributeError (desc : String) : PyExn

/-- Body of an HTTP response, as seen through `response.json()`: either it
decodes to a JSON value, or `json()` raises a `JSONDecodeError` whose
`str` is the carried description. -/
inductive JsonBody : Type where
  | undecodable (desc : String) : JsonBody
  | decoded (data : Json) : JsonBody

/-- An outbound HTTP GET request: base URL and query parameters, in the order
the source builds its `params` dict. -/
structure HttpRequest : Type where
  url : String
  params : List (String × String)

/-- Outcome of `requests.get`: either the call raises a network-level
`RequestException` (timeout, DNS failure, connection error) with the given
`str(e)`, or a response arrives with a status code, a reason phrase and a
body. -/
inductive HttpOutcome : Type where
  | raises (desc : String) : HttpOutcome
  | resp (statusCode : Nat) (reason : String) (body : JsonBody) : HttpOutcome

/-- Process environment of one call: the value of
`os.getenv("WEATHERAPI_KEY")` and the behaviour of the HTTP layer. -/
structure WeatherEnv : Type where
  apiKey : Option String
  http : HttpRequest → HttpOutcome

/-- Result of invoking an operation: the Python-level outcome (`Except.ok`
a returned value, `Except.error` an uncaught exception escaping the call)
and how many HTTP requests the call issued. -/
structure CallResult : Type where
  result : Except PyExn Json
  httpCalls : Nat

/-- Rendering of `str(e)` for the `HTTPError` raised by
`response.raise_for_status()` on a status code in [400, 600): the requests
library renders client errors (< 500) and server errors differently. -/
def httpErrorDesc (code : Nat) (reason : String) (url : String) : String :=
  if code < 500 then
    toString code ++ " Client Error: " ++ reason ++ " for url: " ++ url
  else
    toString code ++ " Server Error: " ++ reason ++ " for url: " ++ url

/-- Python subscript `data[k]` on a decoded JSON value: a key lookup on a
dict, a `KeyError` when the key is absent, a `TypeError` on any non-dict. -/
def Json.getItem : Json → String → Except PyExn Json
  | Json.obj fields, k =>
      match List.lookup k fields with
      | some v => Except.ok v
      | none => Except.error (PyExn.keyError k)
  | _, _ => Except.error (PyExn.typeError "object is not subscriptable")

/-- Model of Python `s.lower()` on the strings this code handles: lower-case
character by character. -/
def pyLower (s : String) : String :=
  String.mk (s.data.map Char.toLower)

/-- Python `condition.lower()`: lower-cases a string, raises
`AttributeError` on any non-string value. -/
def Json.asLower : Json → Except PyExn String
  | Json.str s => Except.ok (pyLower s)
  | _ => Except.error (PyExn.attributeError "object has no attribute lower")

/-- Decimal digits of a natural number, most significant first; the first
argument is recursion fuel, always called with enough of it. -/
def natToDigitsAux : Nat → Nat → List Char
  | 0, _ => []
  | fuel + 1, n =>
    if n < 10 then [Nat.digitChar n]
    else natToDigitsAux fuel (n / 10) ++ [Nat.digitChar (n % 10)]

/-- Decimal digits of a natural number, most significant first. -/
def natToDigits (n : Nat) : List Char :=
  natToDigitsAux (n + 1) n

/-- The numeric value of `q` times ten, rounded to the nearest integer with
ties to even — the rounding of Python float formatting with precision one,
applied here to the exact value. Computed on numerator and denominator:
for `d > 0`, `Int` division and remainder give the floor of `10 * q` and its
fractional part scaled by `d`. -/
def roundTenthsHalfEven (q : ℚ) : ℤ :=
  let n10 : ℤ := 10 * q.num
  let d : ℤ := (q.den : ℤ)
  let f := n10 / d
  let r := n10 % d
  if 2 * r < d then f
  else if d < 2 * r then f + 1
  else if f % 2 = 0 then f else f + 1

/-- Python format `f"{x:.1f}"` on the numeric value `q`: the value rounded to
tenths, rendered with exactly one digit after the decimal point. -/
def format1 (q : ℚ) : String :=
  let n := roundTenthsHalfEven q
  let m := n.natAbs
  let ds := natToDigits (m / 10) ++ ['.', Nat.digitChar (m % 10)]
  String.mk (if n < 0 then '-' :: ds else ds)

/-- Python format spec `:.1f` applied to a JSON value: numbers (and booleans,
which Python treats as integers) format to a fixed-one-decimal string; any
other value raises an exception the source does not catch (`TypeError` or
`ValueError`, modelled uniformly as `typeError`). -/
def formatFixed1 : Json → Except PyExn String
  | Json.num q => Except.ok (format1 q)
  | Json.bool b => Except.ok (format1 (if b then 1 else 0))
  | _ => Except.error (PyExn.typeError "unsupported format string passed to the value")

/-- Error envelope returned when `WEATHERAPI_KEY` is absent or empty
(lines 22-23 and 70-71 of the source). -/
def keyNotConfigured : Json :=
  Json.obj [("status", Json.str "error"),
    ("error_message", Json.str "WeatherAPI key not configured")]

/-- Error envelope built by the `except requests.exceptions.RequestException`
clause (lines 52-56 and 87-91): the message embeds the requested city and
`str(e)` of the caught exception. -/
def weatherUnavailable (city desc : String) : Json :=
  Json.obj [("status", Json.str "error"),
    ("error_message", Json.str ("Weather information for '" ++ city ++
      "' is not available: " ++ desc))]

/-- Success envelope of `get_weather` (lines 41-51), field order as in the
source dict literal. -/
def weatherSuccess (city condLower tcStr tfStr : String) : Json :=
  Json.obj [("status", Json.str "success"),
    ("condition", Json.str condLower),
    ("temperature_c", Json.str tcStr),
    ("temperature_f", Json.str tfStr),
    ("city_name", Json.str city)]

/-- The request `get_weather` issues (lines 25-30): current-conditions
endpoint with key, city and `aqi=no`. -/
def weatherRequest (apiKey city : String) : HttpRequest :=
  { url := "http://api.weatherapi.com/v1/current.json"
    params := [("key", apiKey), ("q", city), ("aqi", "no")] }

/-- The request `get_forcast` issues (lines 73-79): forecast endpoint with
key, city, `days` and `aqi=no`. -/
def forecastRequest (apiKey city : String) (days : Int) : HttpRequest :=
  { url := "http://api.weatherapi.com/v1/forecast.json"
    params := [("key", apiKey), ("q", city), ("days", toString days), ("aqi", "no")] }

/-- Field extraction and envelope construction of `get_weather` on a decoded
body (lines 37-51): `data["current"]["temp_c"]`, `data["current"]["temp_f"]`,
`data["current"]["condition"]["text"]`, then the dict literal evaluating
`condition.lower()` and the two `:.1f` format expressions. Each step may
raise an exception that is not a `RequestException`. -/
def extractWeather (city : String) (data : Json) : Except PyExn Json := do
  let temp_c ← (← data.getItem "current").getItem "temp_c"
  let temp_f ← (← data.getItem "current").getItem "temp_f"
  let condition ← (← (← data.getItem "current").getItem "condition").getItem "text"
  let condLower ← condition.asLower
  let tcStr ← formatFixed1 temp_c
  let tfStr ← formatFixed1 temp_f
  Except.ok (weatherSuccess city condLower tcStr tfStr)

/-- The `except requests.exceptions.RequestException as e` clause shared by
both HTTP operations: a `RequestException` becomes the error envelope with
the city and `str(e)`; a returned value and every other exception pass
through. -/
def catchRequests (city : String) (r : Except PyExn Json) : Except PyExn Json :=
  match r with
  | Except.error (PyExn.requestException desc) => Except.ok (weatherUnavailable city desc)
  | other => other

/-- Body of the `try` block of `get_weather` (lines 32-51): issue the
request, `raise_for_status`, decode JSON, extract fields. -/
def weatherTry (env : WeatherEnv) (apiKey city : String) : Except PyExn Json :=
  match env.http (weatherRequest apiKey city) with
  | HttpOutcome.raises desc => Except.error (PyExn.requestException desc)
  | HttpOutcome.resp code reason body =>
    if 400 ≤ code ∧ code < 600 then
      Except.error (PyExn.requestException
        (httpErrorDesc code reason (weatherRequest apiKey city).url))
    else
      match body with
      | JsonBody.undecodable desc => Except.error (PyExn.requestException desc)
      | JsonBody.decoded data => extractWeather city data

/-- The function `get_weather(city)` of the source (lines 12-56). -/
def get_weather (env : WeatherEnv) (city : String) : CallResult :=
  match env.apiKey with
  | none => { result := Except.ok keyNotConfigured, httpCalls := 0 }
  | some apiKey =>
    if apiKey = "" then { result := Except.ok keyNotConfigured, httpCalls := 0 }
    else { result := catchRequests city (weatherTry env apiKey city), httpCalls := 1 }

/-- Body of the `try` block of `get_forcast` (lines 81-86): issue the
request, `raise_for_status`, decode JSON, return the decoded body as is. -/
def forecastTry (env : WeatherEnv) (apiKey city : String) (days : Int) :
    Except PyExn Json :=
  match env.http (forecastRequest apiKey city days) with
  | HttpOutcome.raises desc => Except.error (PyExn.requestException desc)
  | HttpOutcome.resp code reason body =>
    if 400 ≤ code ∧ code < 600 then
      Except.error (PyExn.requestException
        (httpErrorDesc code reason (forecastRequest apiKey city days).url))
    else
      match body with
      | JsonBody.undecodable desc => Except.error (PyExn.requestException desc)
      | JsonBody.decoded data => Except.ok data

/-- The function `get_forcast(city, days=7)` of the source (lines 59-91);
`days` defaults to 7 at the Python call sites. -/
def get_forcast (env : WeatherEnv) (city : String) (days : Int) : CallResult :=
  match env.apiKey with
  | none => { result := Except.ok keyNotConfigured, httpCalls := 0 }
  | some apiKey =>
    if apiKey = "" then { result := Except.ok keyNotConfigured, httpCalls := 0 }
    else { result := catchRequests city (forecastTry env apiKey city days), httpCalls := 1 }

/-- Wall-clock components of `datetime.datetime.now(tz)` in a timezone, with
what `%Z` (abbreviation) and `%z` (UTC offset in minutes) render from. -/
structure TzDateTime : Type where
  year : Nat
  month : Nat
  day : Nat
  hour : Nat
  minute : Nat
  second : Nat
  tzAbbrev : String
  utcOffsetMinutes : Int

/-- Clock environment: the current `TzDateTime` in a given timezone
identifier. -/
structure TimeEnv : Type where
  now : String → TzDateTime

/-- Zero-pad a number to two digits, as strftime `%m %d %H %M %S` do. -/
def pad2 (n : Nat) : String :=
  if n < 10 then "0" ++ toString n else toString n

/-- Zero-pad a year to four digits, as strftime `%Y` does on glibc. -/
def pad4 (n : Nat) : String :=
  if n < 10 then "000" ++ toString n
  else if n < 100 then "00" ++ toString n
  else if n < 1000 then "0" ++ toString n
  else toString n

/-- Render of strftime `%z`: sign, then hours and minutes of the UTC offset,
each two digits. -/
def formatOffset (m : Int) : String :=
  (if m < 0 then "-" else "+") ++ pad2 (m.natAbs / 60) ++ pad2 (m.natAbs % 60)

/-- Render of `now.strftime("%Y-%m-%d %H:%M:%S %Z%z")` (line 114). -/
def strftimeReport (d : TzDateTime) : String :=
  pad4 d.year ++ "-" ++ pad2 d.month ++ "-" ++ pad2 d.day ++ " " ++
    pad2 d.hour ++ ":" ++ pad2 d.minute ++ ":" ++ pad2 d.second ++ " " ++
    d.tzAbbrev ++ formatOffset d.utcOffsetMinutes

/-- The function `get_current_time(city)` of the source (lines 94-115). It
performs no HTTP request and cannot raise, so its result is a plain `Json`
envelope. -/
def get_current_time (env : TimeEnv) (city : String) : Json :=
  if pyLower city = "new york" then
    let tz_identifier := "America/New_York"
    let now := env.now tz_identifier
    let report := "The current time in " ++ city ++ " is " ++ strftimeReport now
    Json.obj [("status", Json.str "success"), ("report", Json.str report)]
  else
    Json.obj [("status", Json.str "error"),
      ("error_message", Json.str ("Sorry, I don't have timezone information for " ++
        city ++ "."))]

/-- Field lookup on a JSON object, for stating envelope properties. -/
def Json.lookup : Json → String → Option Json
  | Json.obj fields, k => List.lookup k fields
  | _, _ => none

/-- Exceptions of the `requests.exceptions.RequestException` class — exactly
what the `except` clauses of the source catch. -/
def isRequestExn : PyExn → Prop
  | PyExn.requestException _ => True
  | _ => False

/-- Description `str(e)` of the `RequestException` that the `try` block
raises on a given HTTP outcome, when it raises one: the network-level
exception of `requests.get`, the `HTTPError` of `raise_for_status` on a
status in [400, 600), or the `JSONDecodeError` of `response.json()` on an
undecodable body. `none` when the `try` block reaches the decoded body. -/
def requestFailureDesc (url : String) : HttpOutcome → Option String
  | HttpOutcome.raises d => some d
  | HttpOutcome.resp code reason body =>
    if 400 ≤ code ∧ code < 600 then some (httpErrorDesc code reason url)
    else
      match body with
      | JsonBody.undecodable d => some d
      | JsonBody.decoded _ => none

/-- The property that a string has exactly one digit after the decimal point:
everything before the single dot is dot-free, and one digit follows it. -/
def oneFractionalDigit (s : String) : Prop :=
  ∃ intPart d, s.data = intPart ++ ['.', d] ∧ '.' ∉ intPart ∧ d.isDigit

/-- Well-formed current-conditions body of the spec scenario: `temp_c` 21.2,
`temp_f` 70.2, condition text "Sunny". -/
def sunnyBody : Json :=
  Json.obj [("current", Json.obj [
    ("temp_c", Json.num (mkRat 212 10)),
    ("temp_f", Json.num (mkRat 702 10)),
    ("condition", Json.obj [("text", Json.str "Sunny")])])]

/-- Inner `current` object of `sunnyBody`. -/
def sunnyCurrent : Json :=
  Json.obj [("temp_c", Json.num (mkRat 212 10)),
    ("temp_f", Json.num (mkRat 702 10)),
    ("condition", Json.obj [("text", Json.str "Sunny")])]

/-- Environment with no `WEATHERAPI_KEY` configured. -/
def envNoKey : WeatherEnv :=
  { apiKey := none, http := fun _ => HttpOutcome.raises "unreachable" }

/-- Environment with `WEATHERAPI_KEY` set to the empty string. -/
def envEmptyKey : WeatherEnv :=
  { apiKey := some "", http := fun _ => HttpOutcome.raises "unreachable" }

/-- Environment answering every request with 200 and the well-formed sunny
body. -/
def envSunny : WeatherEnv :=
  { apiKey := some "k",
    http := fun _ => HttpOutcome.resp 200 "OK" (JsonBody.decoded sunnyBody) }

/-- Environment answering with 200 and a decodable body that has none of the
expected fields. -/
def envFieldMissing : WeatherEnv :=
  { apiKey := some "k",
    http := fun _ => HttpOutcome.resp 200 "OK" (JsonBody.decoded (Json.obj [])) }

/-- Environment answering with status 300 (not followed as a redirect and
below the 400..599 range `raise_for_status` raises on) and a well-formed
body. -/
def envMultipleChoices : WeatherEnv :=
  { apiKey := some "k",
    http := fun _ => HttpOutcome.resp 300 "Multiple Choices" (JsonBody.decoded sunnyBody) }

/-- Environment answering with a 500 server error. -/
def envServerError : WeatherEnv :=
  { apiKey := some "k",
    http := fun _ =>
      HttpOutcome.resp 500 "Internal Server Error" (JsonBody.decoded (Json.obj [])) }

/-- Environment whose `requests.get` raises a timeout. -/
def envTimeout : WeatherEnv :=
  { apiKey := some "secret", http := fun _ => HttpOutcome.raises "connection timed out" }

/-- A sample forecast response body. -/
def forecastBody : Json :=
  Json.obj [("location", Json.obj [("name", Json.str "Lyon")]),
    ("forecast", Json.obj [("forecastday", Json.arr [])])]

/-- Environment answering every request with 200 and the forecast body. -/
def envForecast : WeatherEnv :=
  { apiKey := some "k",
    http := fun _ => HttpOutcome.resp 200 "OK" (JsonBody.decoded forecastBody) }

/-- A fixed clock: 2026-10-12 09:30:05 EDT (UTC offset -04:00) in every
timezone queried. -/
def sampleClock : TimeEnv :=
  { now := fun _ => ⟨2026, 10, 12, 9, 30, 5, "EDT", -240⟩ }

/-! Helper lemmas about the `Except` monad and the shared pieces of the two
HTTP operations. -/

theorem except_bind_ok {α β : Type} (a : α) (f : α → Except PyExn β) :
    (Except.ok a >>= f) = f a := rfl

theorem except_bind_error {α β : Type} (e : PyExn) (f : α → Except PyExn β) :
    ((Except.error e : Except PyExn α) >>= f) = Except.error e := rfl

theorem except_bind_eq_ok {α β : Type} (x : Except PyExn α) (f : α → Except PyExn β)
    (b : β) : (x >>= f) = Except.ok b ↔ ∃ a, x = Except.ok a ∧ f a = Except.ok b := by
  cases x <;> simp [except_bind_ok, except_bind_error]

theorem catchRequests_ok (city : String) (v : Json) :
    catchRequests city (Except.ok v) = Except.ok v := rfl

theorem catchRequests_requestException (city desc : String) :
    catchRequests city (Except.error (PyExn.requestException desc)) =
      Except.ok (weatherUnavailable city desc) := rfl

theorem catchRequests_error (city : String) (e : PyExn)
    (h : catchRequests city r = Except.error e) :
    r = Except.error e ∧ ¬ isRequestExn e := by
  cases r with
  | ok v => simp [catchRequests] at h
  | error e0 =>
    cases e0 <;> simp [catchRequests] at h <;> subst h <;> simp [isRequestExn]

theorem weatherTry_of_failure (env : WeatherEnv) (apiKey city d : String)
    (hd : requestFailureDesc (weatherRequest apiKey city).url
      (env.http (weatherRequest apiKey city)) = some d) :
    weatherTry env apiKey city = Except.error (PyExn.requestException d) := by
  unfold weatherTry
  unfold requestFailureDesc at hd
  cases henv : env.http (weatherRequest apiKey city) with
  | raises desc => rw [henv] at hd; simp at hd; rw [hd]
  | resp code reason body =>
    rw [henv] at hd
    by_cases hc : 400 ≤ code ∧ code < 600
    · simp [hc] at hd ⊢; rw [hd]
    · simp [hc] at hd ⊢
      cases body with
      | undecodable desc => simp at hd; rw [hd]
      | decoded data => simp at hd

theorem forecastTry_of_failure (env : WeatherEnv) (apiKey city : String) (days : Int)
    (d : String)
    (hd : requestFailureDesc (forecastRequest apiKey city days).url
      (env.http (forecastRequest apiKey city days)) = some d) :
    forecastTry env apiKey city days = Except.error (PyExn.requestException d) := by
  unfold forecastTry
  unfold requestFailureDesc at hd
  cases henv : env.http (forecastRequest apiKey city days) with
  | raises desc => rw [henv] at hd; simp at hd; rw [hd]
  | resp code reason body =>
    rw [henv] at hd
    by_cases hc : 400 ≤ code ∧ code < 600
    · simp [hc] at hd ⊢; rw [hd]
    · simp [hc] at hd ⊢
      cases body with
      | undecodable desc => simp at hd; rw [hd]
      | decoded data => simp at hd

theorem get_weather_some_key (env : WeatherEnv) (apiKey city : String)
    (hk : env.apiKey = some apiKey) (hk2 : apiKey ≠ "") :
    get_weather env city =
      { result := catchRequests city (weatherTry env apiKey city), httpCalls := 1 } := by
  unfold get_weather
  rw [hk]
  simp [hk2]

theorem get_forcast_some_key (env : WeatherEnv) (apiKey city : String) (days : Int)
    (hk : env.apiKey = some apiKey) (hk2 : apiKey ≠ "") :
    get_forcast env city days =
      { result := catchRequests city (forecastTry env apiKey city days), httpCalls := 1 } := by
  unfold get_forcast
  rw [hk]
  simp [hk2]

theorem get_weather_of_failure (env : WeatherEnv) (apiKey city d : String)
    (hk : env.apiKey = some apiKey) (hk2 : apiKey ≠ "")
    (hd : requestFailureDesc (weatherRequest apiKey city).url
      (env.http (weatherRequest apiKey city)) = some d) :
    get_weather env city =
      { result := Except.ok (weatherUnavailable city d), httpCalls := 1 } := by
  rw [get_weather_some_key env apiKey city hk hk2,
    weatherTry_of_failure env apiKey city d hd, catchRequests_requestException]

theorem get_forcast_of_failure (env : WeatherEnv) (apiKey city : String) (days : Int)
    (d : String)
    (hk : env.apiKey = some apiKey) (hk2 : apiKey ≠ "")
    (hd : requestFailureDesc (forecastRequest apiKey city days).url
      (env.http (forecastRequest apiKey city days)) = some d) :
    get_forcast env city days =
      { result := Except.ok (weatherUnavailable city d), httpCalls := 1 } := by
  rw [get_forcast_some_key env apiKey city days hk hk2,
    forecastTry_of_failure env apiKey city days d hd, catchRequests_requestException]

theorem forecastTry_cases (env : WeatherEnv) (apiKey city : String) (days : Int) :
    (∃ data, forecastTry env apiKey city days = Except.ok data) ∨
    (∃ d, forecastTry env apiKey city days = Except.error (PyExn.requestException d)) := by
  unfold forecastTry
  cases env.http (forecastRequest apiKey city days) with
  | raises desc => right; exact ⟨desc, rfl⟩
  | resp code reason body =>
    by_cases hc : 400 ≤ code ∧ code < 600
    · right; simp [hc]
    · simp [hc]
      cases body with
      | undecodable desc => right; exact ⟨desc, rfl⟩
      | decoded data => left; exact ⟨data, rfl⟩

theorem get_forcast_total (env : WeatherEnv) (city : String) (days : Int) :
    ∃ v, (get_forcast env city days).result = Except.ok v := by
  cases hk : env.apiKey with
  | none =>
    refine ⟨keyNotConfigured, ?_⟩
    unfold get_forcast
    rw [hk]
  | some apiKey =>
    by_cases hk2 : apiKey = ""
    · refine ⟨keyNotConfigured, ?_⟩
      unfold get_forcast
      rw [hk]
      simp [hk2]
    · rw [get_forcast_some_key env apiKey city days hk hk2]
      rcases forecastTry_cases env apiKey city days with ⟨data, h⟩ | ⟨d, h⟩
      · exact ⟨data, by rw [h, catchRequests_ok]⟩
      · exact ⟨weatherUnavailable city d, by rw [h, catchRequests_requestException]⟩

theorem weatherTry_cases (env : WeatherEnv) (apiKey city : String) :
    (∃ d, weatherTry env apiKey city = Except.error (PyExn.requestException d)) ∨
    (∃ data, weatherTry env apiKey city = extractWeather city data) := by
  unfold weatherTry
  cases env.http (weatherRequest apiKey city) with
  | raises d => left; exact ⟨d, rfl⟩
  | resp code reason body =>
    by_cases hc : 400 ≤ code ∧ code < 600
    · left; simp [hc]
    · simp [hc]
      cases body with
      | undecodable d => left; exact ⟨d, rfl⟩
      | decoded data => right; exact ⟨data, rfl⟩

theorem extractWeather_ok (city : String) (data cur cond tc tf : Json)
    (ctext tcs tfs : String)
    (hcur : data.getItem "current" = Except.ok cur)
    (htc : cur.getItem "temp_c" = Except.ok tc)
    (htf : cur.getItem "temp_f" = Except.ok tf)
    (hcond : cur.getItem "condition" = Except.ok cond)
    (htext : cond.getItem "text" = Except.ok (Json.str ctext))
    (htcs : formatFixed1 tc = Except.ok tcs)
    (htfs : formatFixed1 tf = Except.ok tfs) :
    extractWeather city data = Except.ok (weatherSuccess city (pyLower ctext) tcs tfs) := by
  simp only [extractWeather, hcur, except_bind_ok, htc, htf, hcond, htext, htcs, htfs,
    Json.asLower]

theorem extractWeather_shape (city : String) (data v : Json)
    (h : extractWeather city data = Except.ok v) :
    ∃ c tc tf, v = weatherSuccess city c tc tf := by
  simp only [extractWeather, except_bind_eq_ok, Except.ok.injEq] at h
  obtain ⟨cur, hcur, tc, htc, cur2, hcur2, tf, htf, cur3, hcur3, cond, hcond, text,
    htext, low, hlow, tcs, htcs, tfs, htfs, hv⟩ := h
  exact ⟨low, tcs, tfs, hv.symm⟩

theorem digitChar_isDigit (n : Nat) (h : n < 10) : (Nat.digitChar n).isDigit := by
  interval_cases n <;> decide

theorem natToDigitsAux_isDigit (fuel : Nat) :
    ∀ n c, c ∈ natToDigitsAux fuel n → c.isDigit := by
  induction fuel with
  | zero => intro n c hc; simp [natToDigitsAux] at hc
  | succ fuel ih =>
    intro n c hc
    unfold natToDigitsAux at hc
    by_cases h : n < 10
    · simp [h] at hc
      subst hc
      exact digitChar_isDigit n h
    · simp [h] at hc
      rcases hc with hc | hc
      · exact ih (n / 10) c hc
      · subst hc
        exact digitChar_isDigit (n % 10) (Nat.mod_lt n (by omega))

theorem natToDigits_no_dot (n : Nat) : '.' ∉ natToDigits n := by
  intro h
  have := natToDigitsAux_isDigit (n + 1) n '.' h
  exact absurd this (by decide)

theorem format1_shape (q : ℚ) : oneFractionalDigit (format1 q) := by
  unfold format1
  by_cases hneg : roundTenthsHalfEven q < 0
  · refine ⟨'-' :: natToDigits ((roundTenthsHalfEven q).natAbs / 10),
      Nat.digitChar ((roundTenthsHalfEven q).natAbs % 10), by simp [hneg], ?_,
      digitChar_isDigit _ (Nat.mod_lt _ (by omega))⟩
    intro h
    rcases List.mem_cons.mp h with h | h
    · exact absurd h (by decide)
    · exact natToDigits_no_dot _ h
  · exact ⟨natToDigits ((roundTenthsHalfEven q).natAbs / 10),
      Nat.digitChar ((roundTenthsHalfEven q).natAbs % 10), by simp [hneg],
      natToDigits_no_dot _, digitChar_isDigit _ (Nat.mod_lt _ (by omega))⟩

theorem get_weather_calls_le_one (env : WeatherEnv) (city : String) :
    (get_weather env city).httpCalls ≤ 1 := by
  unfold get_weather
  cases env.apiKey with
  | none => simp
  | some apiKey => by_cases hk2 : apiKey = "" <;> simp [hk2]

/-! Claim theorems. -/

/-- C1 counterexample: with the key configured and a 200 response whose body
decodes to a JSON object with no `current` field, `get_weather` does not
return an envelope — the `KeyError` raised by `data["current"]` is not a
`RequestException` and escapes the operation uncaught, contradicting the
claim that every failure, including a field-missing upstream body, is caught
and converted into an error envelope. -/
theorem C1_cex_get_weather_uncaught :
    (get_weather envFieldMissing "Paris").result =
      Except.error (PyExn.keyError "current") := rfl

/-- C1 (amended): `get_forcast` always returns a value (every exception its
try block can raise is a `RequestException` and is caught);
`get_current_time` always returns an envelope with a `status` of `success`
or `error`; `get_weather` never lets a `RequestException` escape, and it
converts every request-level failure (network error, HTTP status 400..599,
undecodable body) into the error envelope — but an exception raised while
extracting fields from a decoded body is not caught (see the
counterexample). -/
theorem C1_operations_boundary :
    (∀ env city days, ∃ v, (get_forcast env city days).result = Except.ok v) ∧
    (∀ env city,
      (get_current_time env city).lookup "status" = some (Json.str "success") ∨
      (get_current_time env city).lookup "status" = some (Json.str "error")) ∧
    (∀ env city e, (get_weather env city).result = Except.error e → ¬ isRequestExn e) ∧
    (∀ env apiKey city d, env.apiKey = some apiKey → apiKey ≠ "" →
      requestFailureDesc (weatherRequest apiKey city).url
        (env.http (weatherRequest apiKey city)) = some d →
      (get_weather env city).result = Except.ok (weatherUnavailable city d)) := by
  refine ⟨get_forcast_total, ?_, ?_, ?_⟩
  · intro env city
    by_cases h : pyLower city = "new york" <;> simp [get_current_time, h, Json.lookup]
  · intro env city e h
    cases hk : env.apiKey with
    | none => unfold get_weather at h; rw [hk] at h; simp at h
    | some apiKey =>
      by_cases hk2 : apiKey = ""
      · unfold get_weather at h; rw [hk] at h; simp [hk2] at h
      · rw [get_weather_some_key env apiKey city hk hk2] at h
        exact (catchRequests_error city e h).2
  · intro env apiKey city d hk hk2 hd
    rw [get_weather_of_failure env apiKey city d hk hk2 hd]

/-- C1 witness: the amended theorem applied to the timeout environment —
the request-level failure is converted into the error envelope. -/
theorem C1_operations_boundary_witness :
    (get_weather envTimeout "Paris").result =
      Except.ok (weatherUnavailable "Paris" "connection timed out") :=
  C1_operations_boundary.2.2.2 envTimeout "secret" "Paris" "connection timed out"
    rfl (by decide) rfl

/-- C2: for every clock environment and city string, `get_current_time`
returns a success-status envelope exactly when the lower-cased city equals
"new york", and on any other city it returns an error envelope whose message
names that city. -/
theorem C2_current_time_success_iff (env : TimeEnv) (city : String) :
    ((get_current_time env city).lookup "status" = some (Json.str "success") ↔
      pyLower city = "new york") ∧
    (pyLower city ≠ "new york" →
      (get_current_time env city).lookup "error_message" =
        some (Json.str ("Sorry, I don't have timezone information for " ++ city ++ "."))) := by
  by_cases h : pyLower city = "new york" <;>
    simp [get_current_time, h, Json.lookup]
  rfl

/-- C2 witness: the theorem applied to the sample clock and "London", an
unsupported city. -/
theorem C2_current_time_success_iff_witness :
    (get_current_time sampleClock "London").lookup "error_message" =
      some (Json.str "Sorry, I don't have timezone information for London.") :=
  (C2_current_time_success_iff sampleClock "London").2 (by decide)

/-- C3: when `WEATHERAPI_KEY` is absent, both `get_weather` and `get_forcast`
return the key-not-configured error envelope and issue zero HTTP requests,
for every city and days argument. -/
theorem C3_missing_key_no_http (env : WeatherEnv) (city : String) (days : Int)
    (h : env.apiKey = none) :
    get_weather env city = { result := Except.ok keyNotConfigured, httpCalls := 0 } ∧
    get_forcast env city days = { result := Except.ok keyNotConfigured, httpCalls := 0 } := by
  obtain ⟨key, http⟩ := env
  cases key with
  | none => exact ⟨rfl, rfl⟩
  | some k => simp at h

/-- C3 witness: the theorem applied to the keyless environment. -/
theorem C3_missing_key_no_http_witness :
    get_weather envNoKey "Paris" = { result := Except.ok keyNotConfigured, httpCalls := 0 } ∧
    get_forcast envNoKey "Paris" 7 = { result := Except.ok keyNotConfigured, httpCalls := 0 } :=
  C3_missing_key_no_http envNoKey "Paris" 7 rfl

/-- C9: a `WEATHERAPI_KEY` configured as the empty string is falsy for the
`if not api_key` check, so both operations behave exactly as with an absent
key: the "WeatherAPI key not configured" error envelope and zero HTTP
requests. -/
theorem C9_empty_key_no_http (env : WeatherEnv) (city : String) (days : Int)
    (h : env.apiKey = some "") :
    get_weather env city = { result := Except.ok keyNotConfigured, httpCalls := 0 } ∧
    get_forcast env city days = { result := Except.ok keyNotConfigured, httpCalls := 0 } := by
  obtain ⟨key, http⟩ := env
  cases key with
  | none => simp at h
  | some k =>
    simp at h
    subst h
    exact ⟨rfl, rfl⟩

/-- C9 witness: the theorem applied to the empty-string-key environment. -/
theorem C9_empty_key_no_http_witness :
    get_weather envEmptyKey "Paris" = { result := Except.ok keyNotConfigured, httpCalls := 0 } ∧
    get_forcast envEmptyKey "Paris" 7 = { result := Except.ok keyNotConfigured, httpCalls := 0 } :=
  C9_empty_key_no_http envEmptyKey "Paris" 7 rfl

/-- C4: with the key configured, on a 200 response whose body carries
`current.temp_c` 21.2, `current.temp_f` 70.2 and `current.condition.text`
"Sunny", `get_weather "Paris"` returns exactly the success envelope with the
condition lower-cased and the temperatures as one-decimal strings, in one
HTTP request. -/
theorem C4_paris_sunny (env : WeatherEnv) (apiKey reason : String)
    (body cur cond : Json)
    (hk : env.apiKey = some apiKey) (hk2 : apiKey ≠ "")
    (hh : env.http (weatherRequest apiKey "Paris") =
      HttpOutcome.resp 200 reason (JsonBody.decoded body))
    (hcur : body.getItem "current" = Except.ok cur)
    (htc : cur.getItem "temp_c" = Except.ok (Json.num (mkRat 212 10)))
    (htf : cur.getItem "temp_f" = Except.ok (Json.num (mkRat 702 10)))
    (hcond : cur.getItem "condition" = Except.ok cond)
    (htext : cond.getItem "text" = Except.ok (Json.str "Sunny")) :
    get_weather env "Paris" = { result := Except.ok (Json.obj
      [("status", Json.str "success"), ("condition", Json.str "sunny"),
       ("temperature_c", Json.str "21.2"), ("temperature_f", Json.str "70.2"),
       ("city_name", Json.str "Paris")]), httpCalls := 1 } := by
  rw [get_weather_some_key env apiKey "Paris" hk hk2]
  have htry : weatherTry env apiKey "Paris" =
      Except.ok (weatherSuccess "Paris" (pyLower "Sunny") "21.2" "70.2") := by
    simp only [weatherTry, hh]
    rw [if_neg (by omega : ¬ (400 ≤ 200 ∧ 200 < 600))]
    exact extractWeather_ok "Paris" body cur cond _ _ "Sunny" "21.2" "70.2"
      hcur htc htf hcond htext rfl rfl
  rw [htry, catchRequests_ok]
  rfl

/-- C4 witness: the theorem applied to the concrete sunny environment. -/
theorem C4_paris_sunny_witness :
    get_weather envSunny "Paris" = { result := Except.ok (Json.obj
      [("status", Json.str "success"), ("condition", Json.str "sunny"),
       ("temperature_c", Json.str "21.2"), ("temperature_f", Json.str "70.2"),
       ("city_name", Json.str "Paris")]), httpCalls := 1 } :=
  C4_paris_sunny envSunny "k" "OK" sunnyBody sunnyCurrent
    (Json.obj [("text", Json.str "Sunny")]) rfl (by decide) rfl rfl rfl rfl rfl rfl

/-- C5 counterexample: a response with status 300 — non-2xx, yet below the
400..599 range that `raise_for_status` raises on — and a well-formed body
makes `get_weather` return a success envelope, not the error envelope the
claim requires for every non-2xx status. -/
theorem C5_cex_300_success :
    (get_weather envMultipleChoices "Paris").result =
      Except.ok (weatherSuccess "Paris" "sunny" "21.2" "70.2") := rfl

/-- C5 (amended): `get_weather` issues at most one HTTP request per
invocation, and whenever the request fails at request level — `requests.get`
raises (timeout, DNS failure, connection error), the status code is in
400..599 (what `raise_for_status` raises on, rather than every non-2xx
status), or the body is undecodable — it returns the error envelope whose
message embeds the requested city and the failure description `str(e)`. -/
theorem C5_failure_envelope :
    (∀ env city, (get_weather env city).httpCalls ≤ 1) ∧
    (∀ env apiKey city d, env.apiKey = some apiKey → apiKey ≠ "" →
      requestFailureDesc (weatherRequest apiKey city).url
        (env.http (weatherRequest apiKey city)) = some d →
      get_weather env city =
        { result := Except.ok (weatherUnavailable city d), httpCalls := 1 }) :=
  ⟨get_weather_calls_le_one, fun env apiKey city d hk hk2 hd =>
    get_weather_of_failure env apiKey city d hk hk2 hd⟩

/-- C5 witness: the amended theorem applied to the 500-response environment;
the message carries the city and the `HTTPError` description. -/
theorem C5_failure_envelope_witness :
    get_weather envServerError "Tokyo" = { result := Except.ok (weatherUnavailable "Tokyo"
      ("500 Server Error: Internal Server Error for url: " ++
        "http://api.weatherapi.com/v1/current.json")), httpCalls := 1 } :=
  C5_failure_envelope.2 envServerError "k" "Tokyo" _ rfl (by decide) rfl

/-- C6: with the key configured, when the forecast request succeeds (the
status is outside the 400..599 raising range and the body decodes),
`get_forcast` returns the decoded body itself, unchanged — in particular no
`status` field is added. -/
theorem C6_forecast_verbatim (env : WeatherEnv) (apiKey city reason : String)
    (days : Int) (code : Nat) (data : Json)
    (hk : env.apiKey = some apiKey) (hk2 : apiKey ≠ "")
    (hh : env.http (forecastRequest apiKey city days) =
      HttpOutcome.resp code reason (JsonBody.decoded data))
    (hcode : ¬ (400 ≤ code ∧ code < 600)) :
    get_forcast env city days = { result := Except.ok data, httpCalls := 1 } := by
  rw [get_forcast_some_key env apiKey city days hk hk2]
  have htry : forecastTry env apiKey city days = Except.ok data := by
    simp only [forecastTry, hh]
    rw [if_neg hcode]
  rw [htry, catchRequests_ok]

/-- C6 witness: the theorem applied to the concrete forecast environment —
the returned value is the body itself. -/
theorem C6_forecast_verbatim_witness :
    get_forcast envForecast "Lyon" 7 = { result := Except.ok forecastBody, httpCalls := 1 } :=
  C6_forecast_verbatim envForecast "k" "Lyon" "OK" 7 200 forecastBody
    rfl (by decide) rfl (by omega)

/-- C7: every temperature string `get_weather` builds (the `:.1f` format of a
numeric response value, `format1`) has exactly one digit after its single
decimal point, whatever the precision of the input value; in particular 21
formats to "21.0" and 21.249 to "21.2". -/
theorem C7_one_decimal :
    (∀ tc : ℚ, formatFixed1 (Json.num tc) = Except.ok (format1 tc)) ∧
    (∀ q : ℚ, oneFractionalDigit (format1 q)) ∧
    format1 (mkRat 21 1) = "21.0" ∧ format1 (mkRat 21249 1000) = "21.2" :=
  ⟨fun _ => rfl, format1_shape, by decide, by decide⟩

/-- C8: on any city whose lower-casing is "new york", `get_current_time`
returns the success envelope whose `report` field carries the current time
in the America/New_York timezone rendered by
`strftime("%Y-%m-%d %H:%M:%S %Z%z")`, inside the fixed sentence. -/
theorem C8_supported_city_report (env : TimeEnv) (city : String)
    (h : pyLower city = "new york") :
    get_current_time env city = Json.obj [("status", Json.str "success"),
      ("report", Json.str ("The current time in " ++ city ++ " is " ++
        strftimeReport (env.now "America/New_York")))] := by
  unfold get_current_time
  rw [if_pos h]

/-- C8 witness: the theorem applied to the sample clock, with the rendered
timestamp `2026-10-12 09:30:05 EDT-0400`. -/
theorem C8_supported_city_report_witness :
    get_current_time sampleClock "New York" = Json.obj [("status", Json.str "success"),
      ("report", Json.str "The current time in New York is 2026-10-12 09:30:05 EDT-0400")] := by
  rw [C8_supported_city_report sampleClock "New York" (by decide)]
  rfl

/-- C10: whenever `get_weather` returns a success-status envelope, its
`city_name` field is exactly the caller-supplied city string — it is never
taken from the upstream response (the theorem holds for every environment,
whatever location name the response body carries). -/
theorem C10_city_name_verbatim (env : WeatherEnv) (city : String) (j : Json)
    (hok : (get_weather env city).result = Except.ok j)
    (hs : j.lookup "status" = some (Json.str "success")) :
    j.lookup "city_name" = some (Json.str city) := by
  cases hk : env.apiKey with
  | none =>
    unfold get_weather at hok
    rw [hk] at hok
    simp at hok
    rw [← hok] at hs
    exact absurd (Json.str.inj (Option.some.inj hs)) (by decide)
  | some apiKey =>
    by_cases hk2 : apiKey = ""
    · unfold get_weather at hok
      rw [hk] at hok
      simp [hk2] at hok
      rw [← hok] at hs
      exact absurd (Json.str.inj (Option.some.inj hs)) (by decide)
    · rw [get_weather_some_key env apiKey city hk hk2] at hok
      rcases weatherTry_cases env apiKey city with ⟨d, htry⟩ | ⟨data, htry⟩
      · rw [htry, catchRequests_requestException] at hok
        simp at hok
        rw [← hok] at hs
        exact absurd (Json.str.inj (Option.some.inj hs)) (by decide)
      · rw [htry] at hok
        cases hext : extractWeather city data with
        | error e =>
          rw [hext] at hok
          cases e with
          | requestException d =>
            rw [catchRequests_requestException] at hok
            simp at hok
            rw [← hok] at hs
            exact absurd (Json.str.inj (Option.some.inj hs)) (by decide)
          | keyError k => simp [catchRequests] at hok
          | typeError d => simp [catchRequests] at hok
          | attributeError d => simp [catchRequests] at hok
        | ok v =>
          rw [hext, catchRequests_ok] at hok
          simp at hok
          obtain ⟨c, tcs, tfs, hv⟩ := extractWeather_shape city data v hext
          rw [← hok, hv]
          rfl

/-- C10 witness: the theorem applied to the sunny environment, whose
response body mentions no city at all; the envelope still carries the
caller's "Paris". -/
theorem C10_city_name_verbatim_witness :
    Json.lookup (weatherSuccess "Paris" "sunny" "21.2" "70.2") "city_name" =
      some (Json.str "Paris") :=
  C10_city_name_verbatim envSunny "Paris" (weatherSuccess "Paris" "sunny" "21.2" "70.2")
    rfl rfl

end AgentPy
